import Mathlib

/-!
Shallow embedding of `cli_rng_gen_raw_interactions`
(src/src/ui/commands/cli_rng_gen_raw_interactions.rs).

The bounded-retry unique-sampling loop (lines 286-319 of the source) is
embedded as a fuel-indexed state-transition function.  The external
generator `generate_raw_random_interaction(&gen_ctx, &mut rng, ...)` is
deterministic given the rng state, and the rng state is advanced exactly
once per generator call, so the pair (generator, rng) is abstracted as a
function `gen : Nat → Option A` from the attempt index to the attempt's
outcome.  The artifact type is an arbitrary type `A` with decidable
equality (the Rust `HashSet` is used for membership and insertion only,
never iterated, so a list with membership models it faithfully).

`max_tries` is a Rust `u32`; `max_tries -= 1` is modelled with two's
complement wrap-around modulo 2^32 (release-build semantics; in a debug
build the subtraction at zero panics instead).
-/

namespace RngGen

/-- 2^32, the modulus of the Rust `u32` counter `max_tries`. -/
def U32 : Nat := 4294967296

/-- The three logical states of the sampling loop: `running` while the
`while x < number_of_interactions` loop is active, `succeeded` when the
guard fails (target reached), `exhausted` when `break 'myloop` fires. -/
inductive Status where
  | running
  | succeeded
  | exhausted
deriving DecidableEq, Repr

/-- Outcome of one generator attempt, as observable in the loop body:
a novel artifact (persisted), a duplicate (discarded, budget consumed),
or a soft failure (`None` from the generator, budget consumed). -/
inductive Outcome where
  | novel
  | duplicate
  | failure
deriving DecidableEq, Repr

/-- The configuration of one run of the loop: `target` is
`number_of_interactions` and `numTries` is `num_tries`, both `u32` in the
source. -/
structure Config where
  target : Nat
  numTries : Nat
deriving DecidableEq, Repr

/-- The mutable state of the loop.  `x`, `maxTries`, `memo`
(`memoized_ints`) and `persisted` (the files written by
`interaction_to_hif`, as (ordinal, artifact) pairs) come from the source;
`attempts` and `log` are ghost fields counting generator invocations and
recording the per-attempt outcome sequence; `status` records how the
loop ended. -/
structure St (A : Type) where
  x : Nat
  maxTries : Nat
  memo : List A
  persisted : List (Nat × A)
  attempts : Nat
  log : List Outcome
  status : Status
deriving Repr

/-- Initial state of a run: `x = 0`, `max_tries = num_tries`, empty
dedup set, nothing persisted (lines 286-290 of the source). -/
def init (cfg : Config) (A : Type) : St A :=
  ⟨0, cfg.numTries, [], [], 0, [], Status.running⟩

/-- Ghost bookkeeping for one generator attempt: count it and log its
outcome. -/
def record (s : St A) (o : Outcome) : St A :=
  { s with attempts := s.attempts + 1, log := s.log ++ [o] }

/-- The two's complement wrap-around of the `u32` subtraction
`n - 1`: at 0 it wraps to `u32::MAX = 2^32 - 1`, otherwise it is the
ordinary decrement.  `decWrap_eq_mod` below identifies it with the
standard `(n + (2^32 - 1)) % 2^32` formulation for in-range `n`. -/
def decWrap (n : Nat) : Nat := if n = 0 then U32 - 1 else n - 1

/-- The `if !got_one` branch (lines 310-317): `max_tries -= 1` with u32
wrap-around, then `if max_tries <= 0 { break 'myloop }` (on a u32 the
comparison is an equality with 0). -/
def consume (s : St A) : St A :=
  { s with maxTries := decWrap s.maxTries,
           status := if decWrap s.maxTries = 0 then Status.exhausted
                     else s.status }

/-- One iteration of the loop body after the guard `x <
number_of_interactions` has passed (lines 292-318): invoke the generator;
on `None` or on a duplicate consume one unit of budget; on a novel
artifact persist it under ordinal `x`, insert it into the dedup set and
increment `x`. -/
def step [DecidableEq A] (gen : Nat → Option A) (s : St A) : St A :=
  match gen s.attempts with
  | none => consume (record s Outcome.failure)
  | some a =>
    if a ∈ s.memo then
      consume (record s Outcome.duplicate)
    else
      { record s Outcome.novel with
          memo := a :: s.memo,
          persisted := s.persisted ++ [(s.x, a)],
          x := s.x + 1 }

/-- The `'myloop : while x < number_of_interactions` loop (lines
291-319), fuel-indexed.  A terminal state is returned unchanged; a
running state whose guard fails becomes `succeeded`; otherwise one loop
body executes and the loop continues. -/
def loop [DecidableEq A] (cfg : Config) (gen : Nat → Option A) :
    Nat → St A → St A
  | 0, s => s
  | fuel + 1, s =>
    if s.status = Status.running then
      if s.x < cfg.target then
        loop cfg gen fuel (step gen s)
      else
        { s with status := Status.succeeded }
    else s

/-! ### The CLI layer around the loop

Weights are the thirteen per-category probability parameters
(lines 98-213 of the source).  The Rust code computes with `f32`; the
embedding uses exact rationals, with the tolerance constant
`f32::EPSILON = 2^-23` carried over literally.  The claims under
verification are about which checks run and in which order, not about
`f32` rounding of the sum itself. -/

/-- The thirteen explicit per-category weights, in source order
(`pempty` through `pbroadcast`). -/
structure Weights where
  pempty : ℚ
  paction : ℚ
  pstrict : ℚ
  pseq : ℚ
  pcoreg : ℚ
  ppar : ℚ
  ploops : ℚ
  ploopw : ℚ
  ploopp : ℚ
  palt : ℚ
  pbasic : ℚ
  ptr : ℚ
  pbc : ℚ
deriving DecidableEq, Repr

/-- `f32::EPSILON` as an exact rational: 2^-23. -/
def EPS : ℚ := 1 / 8388608

/-- Absolute value on the rationals, kept as a plain conditional so the
kernel evaluates it directly. -/
def ratAbs (q : ℚ) : ℚ := if q < 0 then -q else q

/-- The sum `pempty + paction + ... + pbroadcast` in the order the
source writes it (line 215). -/
def wsum (w : Weights) : ℚ :=
  w.pempty + w.paction + w.pstrict + w.pseq + w.pcoreg + w.ppar +
  w.ploops + w.ploopw + w.ploopp + w.palt + w.pbasic + w.ptr + w.pbc

/-- The check at line 215 of the source:
`(sum - 1.0).abs() > f32::EPSILON` triggers the panic
`"Probabilities do not sum to 1.0"`. -/
def sumCheckFails (w : Weights) : Bool := decide (EPS < ratAbs (wsum w - 1))

/-- Whether every individual weight lies in [0, 1]. -/
def weightsInRange (w : Weights) : Bool :=
  decide (0 ≤ w.pempty ∧ w.pempty ≤ 1) && decide (0 ≤ w.paction ∧ w.paction ≤ 1) &&
  decide (0 ≤ w.pstrict ∧ w.pstrict ≤ 1) && decide (0 ≤ w.pseq ∧ w.pseq ≤ 1) &&
  decide (0 ≤ w.pcoreg ∧ w.pcoreg ≤ 1) && decide (0 ≤ w.ppar ∧ w.ppar ≤ 1) &&
  decide (0 ≤ w.ploops ∧ w.ploops ≤ 1) && decide (0 ≤ w.ploopw ∧ w.ploopw ≤ 1) &&
  decide (0 ≤ w.ploopp ∧ w.ploopp ≤ 1) && decide (0 ≤ w.palt ∧ w.palt ≤ 1) &&
  decide (0 ≤ w.pbasic ∧ w.pbasic ≤ 1) && decide (0 ≤ w.ptr ∧ w.ptr ≤ 1) &&
  decide (0 ≤ w.pbc ∧ w.pbc ≤ 1)

/-- The fatal configuration errors of the CLI command: the panic at line
216 (`"Probabilities do not sum to 1.0"`) and the panic at line 259
(`"unknown probas for interactions generations"`). -/
inductive CliError where
  | invalidDistribution
  | unknownPreset (name : String)
deriving DecidableEq, Repr

/-- The probability profile selected for the run (lines 238-264).  The
preset bodies (`conservative`, `protocols_with_coreg`,
`default_non_regular`) live in `InteractionSymbolsProbabilities`,
outside the sources in scope; only which constructor runs matters
here. -/
inductive ProfileChoice where
  | conservative
  | protocolsWithCoreg
  | custom (w : Weights)
  | defaultNonRegular
deriving DecidableEq, Repr

/-- Modelled from the spec: `InteractionSymbolsProbabilities::custom`
(the `from_explicit` constructor of the spec) is not among the sources
in scope; per the spec it fails with `InvalidDistribution` if any weight
lies outside [0.0, 1.0].  (The sum-to-1.0 check is NOT modelled here: in
the source in scope it is the caller's check at line 215, run before
this constructor.) -/
def customProfile (w : Weights) : Except CliError ProfileChoice :=
  if weightsInRange w then Except.ok (ProfileChoice.custom w)
  else Except.error CliError.invalidDistribution

/-- The preset dispatch at lines 238-264: when `--probas` is present its
value selects a preset ("custom" builds from the explicit weights, an
unrecognized name panics); when absent the default profile is used. -/
def selectProbas (probasPresent : Bool) (name : String) (w : Weights) :
    Except CliError ProfileChoice :=
  if probasPresent then
    if name = "conservative" then Except.ok ProfileChoice.conservative
    else if name = "protocols_with_coreg" then Except.ok ProfileChoice.protocolsWithCoreg
    else if name = "custom" then customProfile w
    else if name = "default" then Except.ok ProfileChoice.defaultNonRegular
    else Except.error (CliError.unknownPreset name)
  else Except.ok ProfileChoice.defaultNonRegular

/-- The profile-construction pipeline for explicit weights as the CLI
command executes it with `--probas custom`: first the caller's
sum-to-1.0 check (line 215, a panic on failure), then the constructor
call (line 251, range check modelled from the spec). -/
def fromExplicit (w : Weights) : Except CliError ProfileChoice :=
  if sumCheckFails w then Except.error CliError.invalidDistribution
  else customProfile w

/-- The `probas_name` variable (lines 237-264): starts as "default",
set to "conservative" by both the "conservative" and the
"protocols_with_coreg" branches (the source sets "conservative" in
both), and to "custom" by the "custom" branch. -/
def probasDisplayName (probasPresent : Bool) (name : String) : String :=
  if probasPresent then
    if name = "conservative" then "conservative"
    else if name = "protocols_with_coreg" then "conservative"
    else if name = "custom" then "custom"
    else "default"
  else "default"

/-- The full CLI configuration after argument defaulting (lines
62-235). -/
structure CliConfig where
  numInts : Nat
  maxDepth : Nat
  minSymbols : Nat
  numTries : Nat
  seed : Nat
  outputFolder : String
  probasPresent : Bool
  probasName : String
  w : Weights

/-- The four status lines pushed into `ret_print` (lines 268-284).  All
four are pushed before the sampling loop starts, and nothing is pushed
after it. -/
def retPrintLines (c : CliConfig) : List String :=
  [ "generated random interactions interactions",
    "with " ++ probasDisplayName c.probasPresent c.probasName ++
      " interaction symbols selection probabilities",
    "num_ints : " ++ toString c.numInts ++ ", max_depth : " ++
      toString c.maxDepth ++ ", min_symbols : " ++ toString c.minSymbols ++
      ", seed : " ++ toString c.seed,
    "in folder \x27" ++ c.outputFolder ++ "\x27" ]

/-- The post-parse body of `cli_rng_gen_raw_interactions` (lines
60-324): validate the weight sum (panic at 215-217 on failure, before
any sampling), select the profile (panic at 259 on an unknown preset),
run the sampling loop, and return the triple
`(ret_print, 0, 0.0)` built at lines 268-284 and 323.  The returned
value is paired with the final loop state so that theorems can speak
about both; a fatal panic is an `Except.error`, under which no loop
state exists at all (zero attempts are made). -/
def cliRun (A : Type) [DecidableEq A] (c : CliConfig)
    (gen : Nat → Option A) (fuel : Nat) :
    Except CliError ((List String × Nat × ℚ) × St A) :=
  if sumCheckFails c.w then Except.error CliError.invalidDistribution
  else
    (selectProbas c.probasPresent c.probasName c.w).map
      (fun _ => ((retPrintLines c, 0, 0),
        loop ⟨c.numInts, c.numTries⟩ gen fuel (init ⟨c.numInts, c.numTries⟩ A)))

/-- The returned triple of a CLI run, when the run did not panic. -/
def cliTriple (r : Except CliError ((List String × Nat × ℚ) × St A)) :
    Option (List String × Nat × ℚ) :=
  (Except.toOption r).map Prod.fst

/-- The number of artifacts actually produced by a CLI run, when the run
did not panic. -/
def cliProduced (r : Except CliError ((List String × Nat × ℚ) × St A)) :
    Option Nat :=
  (Except.toOption r).map (fun p => p.2.x)

/-- The final loop status of a CLI run, when the run did not panic. -/
def cliStatus (r : Except CliError ((List String × Nat × ℚ) × St A)) :
    Option Status :=
  (Except.toOption r).map (fun p => p.2.status)

/-- A generator that never produces an artifact (every attempt is a soft
failure). -/
def genNone : Nat → Option Nat := fun _ => none

/-- A generator that produces a fresh artifact on every attempt (attempt
`n` yields artifact `n`, so no two attempts collide). -/
def genFresh : Nat → Option Nat := fun n => some n

/-- A generator that always returns the same artifact, so every attempt
after the first is a duplicate. -/
def genConst : Nat → Option Nat := fun _ => some 0

/-- Whether profile construction from explicit weights succeeded. -/
def fromExplicitOk (w : Weights) : Bool :=
  match fromExplicit w with
  | Except.ok _ => true
  | Except.error _ => false

/-- A CLI configuration that selects `--probas custom` with the given
explicit weights (other arguments at their source defaults: `max_depth
= 10`, `min_symbols = 100`, `seed = 0`, folder `gen_ints`). -/
def cliConfigCustom (w : Weights) (numInts numTries : Nat) : CliConfig :=
  ⟨numInts, 10, 100, numTries, 0, "gen_ints", true, "custom", w⟩

/-- The default weight vector of the CLI (`pempty = 0.5`, `paction =
0.5`, all other categories 0), which sums to 1. -/
def wHalf : Weights := ⟨1/2, 1/2, 0, 0, 0, 0, 0, 0, 0, 0, 0, 0, 0⟩

/-- A weight vector whose sum is 0.3, failing the sum check. -/
def wPoint3 : Weights := ⟨3/10, 0, 0, 0, 0, 0, 0, 0, 0, 0, 0, 0, 0⟩

/-- A weight vector that sums to 1 while one weight is negative and
another exceeds 1 (passes the caller's sum check alone). -/
def wOutOfRange : Weights := ⟨2, -1, 0, 0, 0, 0, 0, 0, 0, 0, 0, 0, 0⟩

/-- A run configuration with `num_ints = 1` and `num_tries = 0`, the
boundary at which the `u32` decrement underflows. -/
def cfgB0 : Config := ⟨1, 0⟩

/-- A CLI configuration with valid default weights, no `--probas`
argument, target 2 and budget 5. -/
def cExh : CliConfig := ⟨2, 10, 100, 5, 0, "gen_ints", false, "", wHalf⟩

/-- A mid-run state in which artifact 0 has been produced and memoized:
the next `genConst` attempt is a duplicate. -/
def sDup : St Nat := ⟨1, 2, [0], [(0, 0)], 1, [Outcome.novel], Status.running⟩

/-- A terminal (succeeded) state. -/
def sDone : St Nat := ⟨3, 4, [], [], 0, [], Status.succeeded⟩

/-- A running state holding its last unit of retry budget. -/
def sLast : St Nat := ⟨0, 1, [], [], 0, [], Status.running⟩

/-! ### Invariants of the loop

`InvB` is the budget-accounting invariant: it holds of every state of a
run whose initial budget lies in [1, 2^32), and it packages exact
attempt accounting (`attempts + maxTries = numTries + x`) together with
the fact that the `u32` counter is still strictly positive whenever the
loop is still running — which is exactly what makes the decrement at
line 312 safe.  `InvP` is the persistence invariant: ordinals are
0,1,2,... in order, persisted artifacts are pairwise distinct, and every
persisted artifact is in the dedup set. -/

/-- Budget-accounting invariant of a run with configuration `cfg`. -/
structure InvB (cfg : Config) (s : St A) : Prop where
  x_le : s.x ≤ cfg.target
  mt_le : s.maxTries ≤ cfg.numTries
  acct : s.attempts + s.maxTries = cfg.numTries + s.x
  run_pos : s.status = Status.running → 1 ≤ s.maxTries

/-- Persistence invariant: ordinals are assigned consecutively from 0,
no artifact is persisted twice, and persisted artifacts are memoized. -/
structure InvP (s : St A) : Prop where
  ords : s.persisted.map Prod.fst = List.range s.x
  nodup : (s.persisted.map Prod.snd).Nodup
  sub_memo : ∀ b ∈ s.persisted.map Prod.snd, b ∈ s.memo

/-- The conditional form of the wrapped decrement agrees with the
standard modular formulation on every in-range `u32` value. -/
theorem decWrap_eq_mod (n : Nat) (h : n < U32) :
    decWrap n = (n + (U32 - 1)) % U32 := by
  unfold decWrap U32 at *
  by_cases h0 : n = 0
  · subst h0; decide
  · rw [if_neg h0]; omega

/-- On a strictly positive counter the wrapped decrement is the exact
decrement. -/
theorem decWrap_pos (n : Nat) (h : 1 ≤ n) : decWrap n = n - 1 := by
  unfold decWrap
  rw [if_neg (by omega)]

theorem consume_maxTries (s : St A) : (consume s).maxTries = decWrap s.maxTries := rfl

theorem consume_status (s : St A) :
    (consume s).status =
      if decWrap s.maxTries = 0 then Status.exhausted else s.status := rfl

theorem consume_x (s : St A) : (consume s).x = s.x := rfl

theorem consume_attempts (s : St A) : (consume s).attempts = s.attempts := rfl

theorem consume_memo (s : St A) : (consume s).memo = s.memo := rfl

theorem consume_persisted (s : St A) : (consume s).persisted = s.persisted := rfl

/-- `step` reduced on a soft failure. -/
theorem step_none [DecidableEq A] (gen : Nat → Option A) (s : St A)
    (h : gen s.attempts = none) :
    step gen s = consume (record s Outcome.failure) := by
  unfold step; rw [h]

/-- `step` reduced on a duplicate artifact. -/
theorem step_dup [DecidableEq A] (gen : Nat → Option A) (s : St A) (a : A)
    (h : gen s.attempts = some a) (hmem : a ∈ s.memo) :
    step gen s = consume (record s Outcome.duplicate) := by
  unfold step; rw [h]
  show (if a ∈ s.memo then consume (record s Outcome.duplicate) else _) = _
  rw [if_pos hmem]

/-- `step` reduced on a novel artifact. -/
theorem step_novel [DecidableEq A] (gen : Nat → Option A) (s : St A) (a : A)
    (h : gen s.attempts = some a) (hmem : a ∉ s.memo) :
    step gen s = { record s Outcome.novel with
                     memo := a :: s.memo,
                     persisted := s.persisted ++ [(s.x, a)],
                     x := s.x + 1 } := by
  unfold step; rw [h]
  show (if a ∈ s.memo then _ else _) = _
  rw [if_neg hmem]

/-- A budget-consuming attempt (soft failure or duplicate) preserves the
budget invariant. -/
theorem invB_consume_record {cfg : Config} {s : St A} (o : Outcome)
    (hx : s.x < cfg.target) (hpos : 1 ≤ s.maxTries) (h : InvB cfg s) :
    InvB cfg (consume (record s o)) := by
  have hd : decWrap s.maxTries = s.maxTries - 1 := decWrap_pos _ hpos
  have hacct := h.acct
  have hmt := h.mt_le
  refine ⟨?_, ?_, ?_, ?_⟩
  · show s.x ≤ cfg.target
    exact Nat.le_of_lt hx
  · show decWrap s.maxTries ≤ cfg.numTries
    omega
  · show s.attempts + 1 + decWrap s.maxTries = cfg.numTries + s.x
    omega
  · intro hst
    show 1 ≤ decWrap s.maxTries
    by_cases hz : decWrap s.maxTries = 0
    · exfalso
      have : (consume (record s o)).status = Status.exhausted := by
        rw [consume_status]
        show (if decWrap s.maxTries = 0 then Status.exhausted else _) = _
        rw [if_pos hz]
      rw [hst] at this
      cases this
    · omega

/-- One loop-body execution preserves the budget invariant, provided the
state is one the loop actually steps from (running, guard satisfied). -/
theorem invB_step [DecidableEq A] {cfg : Config} {gen : Nat → Option A}
    {s : St A} (hrun : s.status = Status.running)
    (hx : s.x < cfg.target) (h : InvB cfg s) : InvB cfg (RngGen.step gen s) := by
  have hpos : 1 ≤ s.maxTries := h.run_pos hrun
  cases hgen : gen s.attempts with
  | none =>
    rw [step_none gen s hgen]
    exact invB_consume_record Outcome.failure hx hpos h
  | some a =>
    by_cases hmem : a ∈ s.memo
    · rw [step_dup gen s a hgen hmem]
      exact invB_consume_record Outcome.duplicate hx hpos h
    · rw [step_novel gen s a hgen hmem]
      have hacct := h.acct
      refine ⟨hx, h.mt_le, ?_, fun _ => hpos⟩
      show s.attempts + 1 + s.maxTries = cfg.numTries + (s.x + 1)
      omega

/-- The budget invariant is preserved by the whole loop. -/
theorem invB_loop [DecidableEq A] {cfg : Config} {gen : Nat → Option A} :
    ∀ (fuel : Nat) (s : St A), InvB cfg s → InvB cfg (RngGen.loop cfg gen fuel s) := by
  intro fuel
  induction fuel with
  | zero => intro s h; exact h
  | succ n ih =>
    intro s h
    show InvB cfg (RngGen.loop cfg gen (n + 1) s)
    rw [RngGen.loop]
    by_cases hrun : s.status = Status.running
    · rw [if_pos hrun]
      by_cases hx : s.x < cfg.target
      · rw [if_pos hx]; exact ih _ (invB_step hrun hx h)
      · rw [if_neg hx]
        exact ⟨h.x_le, h.mt_le, h.acct, fun hst => by cases hst⟩
    · rw [if_neg hrun]; exact h

/-- One loop-body execution preserves the persistence invariant. -/
theorem invP_step [DecidableEq A] {gen : Nat → Option A}
    {s : St A} (h : InvP s) : InvP (RngGen.step gen s) := by
  cases hgen : gen s.attempts with
  | none =>
    rw [step_none gen s hgen]
    exact ⟨h.ords, h.nodup, h.sub_memo⟩
  | some a =>
    by_cases hmem : a ∈ s.memo
    · rw [step_dup gen s a hgen hmem]
      exact ⟨h.ords, h.nodup, h.sub_memo⟩
    · rw [step_novel gen s a hgen hmem]
      refine ⟨?_, ?_, ?_⟩
      · show (s.persisted ++ [(s.x, a)]).map Prod.fst = List.range (s.x + 1)
        rw [List.map_append, h.ords, List.range_succ]; rfl
      · show ((s.persisted ++ [(s.x, a)]).map Prod.snd).Nodup
        rw [List.map_append, List.nodup_append]
        refine ⟨h.nodup, List.nodup_singleton a, ?_⟩
        intro b hb hb'
        rcases List.mem_singleton.mp hb' with rfl
        exact hmem (h.sub_memo b hb)
      · intro b hb
        show b ∈ a :: s.memo
        rw [List.map_append] at hb
        rcases List.mem_append.mp hb with hb | hb
        · exact List.mem_cons_of_mem a (h.sub_memo b hb)
        · have hba : b = a := List.mem_singleton.mp hb
          rw [hba]
          exact List.mem_cons_self a s.memo

/-- The persistence invariant is preserved by the whole loop. -/
theorem invP_loop [DecidableEq A] {cfg : Config} {gen : Nat → Option A} :
    ∀ (fuel : Nat) (s : St A), InvP s → InvP (RngGen.loop cfg gen fuel s) := by
  intro fuel
  induction fuel with
  | zero => intro s h; exact h
  | succ n ih =>
    intro s h
    show InvP (RngGen.loop cfg gen (n + 1) s)
    rw [RngGen.loop]
    by_cases hrun : s.status = Status.running
    · rw [if_pos hrun]
      by_cases hx : s.x < cfg.target
      · rw [if_pos hx]; exact ih _ (invP_step h)
      · rw [if_neg hx]; exact ⟨h.ords, h.nodup, h.sub_memo⟩
    · rw [if_neg hrun]; exact h

/-- Both invariants hold of the initial state. -/
theorem invB_init (cfg : Config) (h : 1 ≤ cfg.numTries) (A : Type) :
    InvB cfg (RngGen.init cfg A) :=
  ⟨Nat.zero_le _, Nat.le_refl _, by show 0 + cfg.numTries = cfg.numTries + 0; omega,
   fun _ => h⟩

theorem invP_init (cfg : Config) (A : Type) : InvP (RngGen.init cfg A) :=
  ⟨rfl, List.nodup_nil, fun b hb => absurd hb (List.not_mem_nil b)⟩

/-- A terminal state is absorbing: the loop returns it unchanged, with
no further attempt made. -/
theorem loop_terminal [DecidableEq A] (cfg : Config) (gen : Nat → Option A)
    (fuel : Nat) (s : St A) (h : s.status ≠ Status.running) :
    RngGen.loop cfg gen fuel s = s := by
  cases fuel with
  | zero => rfl
  | succ n => show RngGen.loop cfg gen (n + 1) s = s; rw [RngGen.loop, if_neg h]

/-! ### Helper facts about the concrete weight vectors -/

theorem sumCheckFails_wHalf : sumCheckFails wHalf = false := by
  apply decide_eq_false
  unfold EPS ratAbs wsum wHalf
  norm_num

theorem sumCheckFails_wPoint3 : sumCheckFails wPoint3 = true := by
  apply decide_eq_true
  unfold EPS ratAbs wsum wPoint3
  norm_num

theorem sumCheckFails_wOutOfRange : sumCheckFails wOutOfRange = false := by
  apply decide_eq_false
  unfold EPS ratAbs wsum wOutOfRange
  norm_num

theorem weightsInRange_wHalf : weightsInRange wHalf = true := by
  unfold weightsInRange wHalf
  norm_num

theorem weightsInRange_wOutOfRange : weightsInRange wOutOfRange = false := by
  unfold weightsInRange wOutOfRange
  norm_num

/-- Profile construction succeeds exactly when both validity checks
pass. -/
theorem fromExplicitOk_iff (w : Weights) :
    fromExplicitOk w = true ↔
      (sumCheckFails w = false ∧ weightsInRange w = true) := by
  unfold fromExplicitOk fromExplicit customProfile
  cases hs : sumCheckFails w <;> cases hr : weightsInRange w <;> simp [hs, hr]

/-- The sum check in propositional form. -/
theorem sumCheckFails_false_iff (w : Weights) :
    sumCheckFails w = false ↔ ratAbs (wsum w - 1) ≤ EPS := by
  unfold sumCheckFails
  rw [decide_eq_false_iff_not]
  exact not_lt

/-- The range check in propositional form. -/
theorem weightsInRange_true_iff (w : Weights) :
    weightsInRange w = true ↔
      ((0 ≤ w.pempty ∧ w.pempty ≤ 1) ∧
       (0 ≤ w.paction ∧ w.paction ≤ 1) ∧
       (0 ≤ w.pstrict ∧ w.pstrict ≤ 1) ∧
       (0 ≤ w.pseq ∧ w.pseq ≤ 1) ∧
       (0 ≤ w.pcoreg ∧ w.pcoreg ≤ 1) ∧
       (0 ≤ w.ppar ∧ w.ppar ≤ 1) ∧
       (0 ≤ w.ploops ∧ w.ploops ≤ 1) ∧
       (0 ≤ w.ploopw ∧ w.ploopw ≤ 1) ∧
       (0 ≤ w.ploopp ∧ w.ploopp ≤ 1) ∧
       (0 ≤ w.palt ∧ w.palt ≤ 1) ∧
       (0 ≤ w.pbasic ∧ w.pbasic ≤ 1) ∧
       (0 ≤ w.ptr ∧ w.ptr ≤ 1) ∧
       (0 ≤ w.pbc ∧ w.pbc ≤ 1)) := by
  unfold weightsInRange
  simp [and_assoc]

/-- `selectProbas` with `--probas custom` is exactly the explicit
constructor call. -/
theorem selectProbas_custom (w : Weights) :
    selectProbas true "custom" w = customProfile w := rfl

/-! ### The claims -/

/-- C1: Constructing a profile from explicit per-category weights fails,
fatally and before any sampling attempt, if the weights do not sum
to 1.0 within the `f32::EPSILON` tolerance or if any individual weight
lies outside [0.0, 1.0]; for every weight vector passing both checks,
construction succeeds. -/
theorem C1_from_explicit_validation :
    ∀ w : Weights,
      (fromExplicitOk w = true ↔
        (ratAbs (wsum w - 1) ≤ EPS ∧
         (0 ≤ w.pempty ∧ w.pempty ≤ 1) ∧
         (0 ≤ w.paction ∧ w.paction ≤ 1) ∧
         (0 ≤ w.pstrict ∧ w.pstrict ≤ 1) ∧
         (0 ≤ w.pseq ∧ w.pseq ≤ 1) ∧
         (0 ≤ w.pcoreg ∧ w.pcoreg ≤ 1) ∧
         (0 ≤ w.ppar ∧ w.ppar ≤ 1) ∧
         (0 ≤ w.ploops ∧ w.ploops ≤ 1) ∧
         (0 ≤ w.ploopw ∧ w.ploopw ≤ 1) ∧
         (0 ≤ w.ploopp ∧ w.ploopp ≤ 1) ∧
         (0 ≤ w.palt ∧ w.palt ≤ 1) ∧
         (0 ≤ w.pbasic ∧ w.pbasic ≤ 1) ∧
         (0 ≤ w.ptr ∧ w.ptr ≤ 1) ∧
         (0 ≤ w.pbc ∧ w.pbc ≤ 1))) ∧
      (fromExplicitOk w = false →
        ∀ (numInts numTries fuel : Nat) (gen : Nat → Option Nat),
          cliRun Nat (cliConfigCustom w numInts numTries) gen fuel =
            Except.error CliError.invalidDistribution) := by
  intro w
  constructor
  · rw [fromExplicitOk_iff, sumCheckFails_false_iff, weightsInRange_true_iff]
  · intro hfail numInts numTries fuel gen
    have hnot : ¬(sumCheckFails w = false ∧ weightsInRange w = true) := by
      rw [← fromExplicitOk_iff, hfail]
      simp
    show (if sumCheckFails w = true then
            Except.error CliError.invalidDistribution
          else _) = _
    cases hs : sumCheckFails w with
    | true => rw [if_pos rfl]
    | false =>
      rw [if_neg (by simp)]
      have hr : weightsInRange w = false := by
        cases hrr : weightsInRange w
        · rfl
        · exact absurd ⟨hs, hrr⟩ hnot
      show (customProfile w).map _ = _
      unfold customProfile
      rw [hr]
      rfl

/-- Witness for C1 at concrete inputs: the default weight vector
(0.5, 0.5, 0, ..., 0) passes construction, and the out-of-range vector
(2, -1, 0, ..., 0) — whose sum is exactly 1 — still aborts the CLI run
with `InvalidDistribution` before any sampling. -/
theorem C1_from_explicit_validation_witness :
    fromExplicitOk wHalf = true ∧
    cliRun Nat (cliConfigCustom wOutOfRange 1 1) genNone 3 =
      Except.error CliError.invalidDistribution := by
  constructor
  · exact (C1_from_explicit_validation wHalf).1.mpr
      (by
        unfold EPS ratAbs wsum wHalf
        norm_num)
  · exact (C1_from_explicit_validation wOutOfRange).2
      (by
        unfold fromExplicitOk fromExplicit customProfile
        rw [sumCheckFails_wOutOfRange, weightsInRange_wOutOfRange]
        rfl)
      1 1 3 genNone

/-- C9: The explicit weight parameters are validated (sum within
`f32::EPSILON` of 1.0) before sampling regardless of which preset is
selected: the check at line 215 runs before the preset dispatch at line
238, so even a run with `--probas default` or `--probas conservative`
panics on explicit weights whose sum deviates from 1.0, before any
sampling attempt is made. -/
theorem C9_sum_check_regardless_of_preset :
    ∀ (c : CliConfig) (gen : Nat → Option Nat) (fuel : Nat),
      sumCheckFails c.w = true →
      cliRun Nat c gen fuel = Except.error CliError.invalidDistribution := by
  intro c gen fuel h
  show (if sumCheckFails c.w = true then
          Except.error CliError.invalidDistribution
        else _) = _
  rw [if_pos h]

/-- Witness for C9: a run that selects the preset "default" (which
ignores the explicit weights) still aborts when the explicit weights
sum to 0.3. -/
theorem C9_sum_check_regardless_of_preset_witness :
    cliRun Nat ⟨2, 10, 100, 5, 0, "gen_ints", true, "default", wPoint3⟩ genFresh 10 =
      Except.error CliError.invalidDistribution :=
  C9_sum_check_regardless_of_preset
    ⟨2, 10, 100, 5, 0, "gen_ints", true, "default", wPoint3⟩ genFresh 10
    sumCheckFails_wPoint3

/-- C2 (failing input): with `num_tries = 0` and a generator whose first
attempt produces nothing, the claim says the loop terminates immediately
in the Exhausted state with zero artifacts produced.  Instead the `u32`
decrement `max_tries -= 1` underflows (a panic in a debug build; the
wrap modelled here in a release build), the `max_tries <= 0` break is
missed, and the loop is still running after five attempts with the
counter at `2^32 - 5`. -/
theorem C2_budget_zero_underflow :
    (loop cfgB0 genNone 5 (init cfgB0 Nat)).status = Status.running ∧
    (loop cfgB0 genNone 5 (init cfgB0 Nat)).x = 0 ∧
    (loop cfgB0 genNone 5 (init cfgB0 Nat)).attempts = 5 ∧
    (loop cfgB0 genNone 5 (init cfgB0 Nat)).maxTries = U32 - 5 := by
  refine ⟨rfl, rfl, rfl, ?_⟩
  decide

/-- C3 (counterexample): at `num_tries = 0` the attempts bound
`attempts ≤ initial budget + produced` fails — after the underflow the
loop keeps attempting, and three attempts exceed `0 + 0`. -/
theorem C3_attempts_bound_counterexample :
    cfgB0.numTries + (loop cfgB0 genNone 3 (init cfgB0 Nat)).x <
      (loop cfgB0 genNone 3 (init cfgB0 Nat)).attempts := by
  decide

/-- C3 (amended): for every run whose initial retry budget is at least 1
(and in `u32` range), produced-count never exceeds `target_count` and
the accounting is exact — attempts plus remaining budget always equals
initial budget plus produced-count, so attempts ≤ initial budget +
produced-count: every attempt either consumes one unit of budget or
produces one artifact, never both and never neither. -/
theorem C3_budget_invariant :
    ∀ (A : Type) [inst : DecidableEq A] (cfg : Config) (gen : Nat → Option A)
      (fuel : Nat),
      1 ≤ cfg.numTries → cfg.numTries < U32 →
      (loop cfg gen fuel (init cfg A)).x ≤ cfg.target ∧
      (loop cfg gen fuel (init cfg A)).attempts +
          (loop cfg gen fuel (init cfg A)).maxTries =
        cfg.numTries + (loop cfg gen fuel (init cfg A)).x ∧
      (loop cfg gen fuel (init cfg A)).attempts ≤
        cfg.numTries + (loop cfg gen fuel (init cfg A)).x := by
  intro A inst cfg gen fuel h1 _
  have hb := @invB_loop A inst cfg gen fuel (init cfg A) (invB_init cfg h1 A)
  refine ⟨hb.x_le, hb.acct, ?_⟩
  have := hb.acct
  omega

/-- Witness for C3 at a concrete run: target 2, budget 3, a generator
producing a fresh artifact each attempt. -/
theorem C3_budget_invariant_witness :
    (loop ⟨2, 3⟩ genFresh 10 (init ⟨2, 3⟩ Nat)).x ≤ 2 ∧
    (loop ⟨2, 3⟩ genFresh 10 (init ⟨2, 3⟩ Nat)).attempts +
        (loop ⟨2, 3⟩ genFresh 10 (init ⟨2, 3⟩ Nat)).maxTries =
      3 + (loop ⟨2, 3⟩ genFresh 10 (init ⟨2, 3⟩ Nat)).x ∧
    (loop ⟨2, 3⟩ genFresh 10 (init ⟨2, 3⟩ Nat)).attempts ≤
      3 + (loop ⟨2, 3⟩ genFresh 10 (init ⟨2, 3⟩ Nat)).x :=
  C3_budget_invariant Nat ⟨2, 3⟩ genFresh 10 (by decide) (by decide)

/-- C4: in every single run no two persisted artifacts are equal; a
generated artifact already present in the dedup set is discarded —
never persisted, never re-inserted, and the produced-count does not
move — while a novel artifact is inserted into the set within the same
attempt. -/
theorem C4_dedup_invariant :
    ∀ (A : Type) [inst : DecidableEq A] (cfg : Config) (gen : Nat → Option A)
      (fuel : Nat),
      ((loop cfg gen fuel (init cfg A)).persisted.map Prod.snd).Nodup ∧
      (∀ (s : St A) (a : A), gen s.attempts = some a → a ∈ s.memo →
        (step gen s).persisted = s.persisted ∧
        (step gen s).memo = s.memo ∧
        (step gen s).x = s.x) ∧
      (∀ (s : St A) (a : A), gen s.attempts = some a → a ∉ s.memo →
        (step gen s).memo = a :: s.memo ∧
        (step gen s).persisted = s.persisted ++ [(s.x, a)]) := by
  intro A inst cfg gen fuel
  refine ⟨(@invP_loop A inst cfg gen fuel (init cfg A) (invP_init cfg A)).nodup,
          ?_, ?_⟩
  · intro s a hgen hmem
    rw [step_dup gen s a hgen hmem]
    exact ⟨rfl, rfl, rfl⟩
  · intro s a hgen hmem
    rw [step_novel gen s a hgen hmem]
    exact ⟨rfl, rfl⟩

/-- Witness for C4: a run in which every attempt returns artifact 0, and
a concrete duplicate step. -/
theorem C4_dedup_invariant_witness :
    ((loop ⟨2, 2⟩ genConst 10 (init ⟨2, 2⟩ Nat)).persisted.map Prod.snd).Nodup ∧
    ((step genConst sDup).persisted = sDup.persisted ∧
     (step genConst sDup).memo = sDup.memo ∧
     (step genConst sDup).x = sDup.x) ∧
    ((step genFresh sLast).memo = 0 :: sLast.memo ∧
     (step genFresh sLast).persisted = sLast.persisted ++ [(sLast.x, 0)]) :=
  ⟨(C4_dedup_invariant Nat ⟨2, 2⟩ genConst 10).1,
   (C4_dedup_invariant Nat ⟨2, 2⟩ genConst 10).2.1 sDup 0 rfl (by decide),
   (C4_dedup_invariant Nat ⟨2, 2⟩ genFresh 10).2.2 sLast 0 rfl (by decide)⟩

/-- C5: the run is a pure function of the configuration and the
generator behavior — two runs with equal seed-determined generators and
equal configurations yield the identical final state (the same
per-attempt outcome log, the same persisted artifacts, the same
counters) — and the ordinal indices assigned to persisted artifacts
(used as the file names `i<ordinal>`) are exactly 0, 1, 2, ...,
produced-count - 1, in order of persistence. -/
theorem C5_determinism_and_ordinals :
    ∀ (A : Type) [inst : DecidableEq A] (cfg cfg2 : Config)
      (gen gen2 : Nat → Option A) (fuel : Nat),
      cfg = cfg2 → gen = gen2 →
      loop cfg gen fuel (init cfg A) = loop cfg2 gen2 fuel (init cfg2 A) ∧
      (loop cfg gen fuel (init cfg A)).persisted.map Prod.fst =
        List.range (loop cfg gen fuel (init cfg A)).x := by
  intro A inst cfg cfg2 gen gen2 fuel hc hg
  subst hc
  subst hg
  exact ⟨rfl, (@invP_loop A inst cfg gen fuel (init cfg A) (invP_init cfg A)).ords⟩

/-- Witness for C5 at a concrete run. -/
theorem C5_determinism_and_ordinals_witness :
    loop ⟨2, 5⟩ genFresh 10 (init ⟨2, 5⟩ Nat) =
      loop ⟨2, 5⟩ genFresh 10 (init ⟨2, 5⟩ Nat) ∧
    (loop ⟨2, 5⟩ genFresh 10 (init ⟨2, 5⟩ Nat)).persisted.map Prod.fst =
      List.range (loop ⟨2, 5⟩ genFresh 10 (init ⟨2, 5⟩ Nat)).x :=
  C5_determinism_and_ordinals Nat ⟨2, 5⟩ ⟨2, 5⟩ genFresh genFresh 10 rfl rfl

/-- C7: a terminal state is absorbing (no further generator attempt is
ever made once Succeeded or Exhausted is reached); when produced-count
has reached the target the loop stops at once even if budget remains; a
novel-artifact attempt consumes no budget — so it can bring
produced-count to the target even on the last unit of budget — and a
budget-consuming attempt on the last unit of budget exhausts the run
immediately after that very attempt. -/
theorem C7_terminal_no_further_attempts :
    ∀ (A : Type) [inst : DecidableEq A] (cfg : Config) (gen : Nat → Option A)
      (fuel : Nat) (s : St A),
      (s.status ≠ Status.running → loop cfg gen fuel s = s) ∧
      (s.status = Status.running → cfg.target ≤ s.x →
        loop cfg gen (fuel + 1) s = { s with status := Status.succeeded }) ∧
      (∀ a : A, gen s.attempts = some a → a ∉ s.memo →
        (step gen s).maxTries = s.maxTries ∧
        (step gen s).status = s.status ∧
        (step gen s).x = s.x + 1) ∧
      (gen s.attempts = none → s.maxTries = 1 →
        (step gen s).status = Status.exhausted ∧
        (step gen s).attempts = s.attempts + 1) := by
  intro A inst cfg gen fuel s
  refine ⟨loop_terminal cfg gen fuel s, ?_, ?_, ?_⟩
  · intro hrun hx
    rw [loop, if_pos hrun, if_neg (Nat.not_lt.mpr hx)]
  · intro a hgen hmem
    rw [step_novel gen s a hgen hmem]
    exact ⟨rfl, rfl, rfl⟩
  · intro hgen hmt
    rw [step_none gen s hgen]
    constructor
    · show (if decWrap s.maxTries = 0 then Status.exhausted else s.status) =
        Status.exhausted
      rw [hmt]
      rfl
    · rfl

/-- Witness for C7: a succeeded state is left untouched; a running state
at the target is closed with no attempt; a novel attempt on the last
budget unit keeps the budget; a failing attempt on the last budget unit
exhausts. -/
theorem C7_terminal_no_further_attempts_witness :
    loop ⟨3, 4⟩ genFresh 6 sDone = sDone ∧
    loop ⟨1, 4⟩ genFresh 3 sDup = { sDup with status := Status.succeeded } ∧
    ((step genFresh sLast).maxTries = sLast.maxTries ∧
     (step genFresh sLast).status = sLast.status ∧
     (step genFresh sLast).x = sLast.x + 1) ∧
    ((step genNone sLast).status = Status.exhausted ∧
     (step genNone sLast).attempts = sLast.attempts + 1) :=
  ⟨(C7_terminal_no_further_attempts Nat ⟨3, 4⟩ genFresh 6 sDone).1 (by decide),
   (C7_terminal_no_further_attempts Nat ⟨1, 4⟩ genFresh 2 sDup).2.1 rfl (by decide),
   (C7_terminal_no_further_attempts Nat ⟨1, 4⟩ genFresh 0 sLast).2.2.1 0 rfl
     (by decide),
   (C7_terminal_no_further_attempts Nat ⟨1, 4⟩ genNone 0 sLast).2.2.2 rfl rfl⟩

/-- C8: with `target_count = 0` the loop guard fails at once: the run
terminates immediately in the Succeeded state having made zero generator
attempts, persisted nothing, and consumed no budget. -/
theorem C8_target_zero_immediate_success :
    ∀ (A : Type) [inst : DecidableEq A] (cfg : Config) (gen : Nat → Option A)
      (fuel : Nat),
      cfg.target = 0 →
      loop cfg gen (fuel + 1) (init cfg A) =
          { init cfg A with status := Status.succeeded } ∧
      (loop cfg gen (fuel + 1) (init cfg A)).status = Status.succeeded ∧
      (loop cfg gen (fuel + 1) (init cfg A)).attempts = 0 ∧
      (loop cfg gen (fuel + 1) (init cfg A)).persisted = [] ∧
      (loop cfg gen (fuel + 1) (init cfg A)).maxTries = cfg.numTries := by
  intro A inst cfg gen fuel h
  have heq : loop cfg gen (fuel + 1) (init cfg A) =
      { init cfg A with status := Status.succeeded } := by
    rw [loop, if_pos (show (init cfg A).status = Status.running from rfl),
        if_neg ?hn]
    case hn =>
      intro hlt
      rw [h] at hlt
      exact Nat.not_lt_zero _ hlt
  refine ⟨heq, ?_, ?_, ?_, ?_⟩ <;> rw [heq] <;> rfl

/-- Witness for C8 at a concrete run with budget 7. -/
theorem C8_target_zero_immediate_success_witness :
    loop ⟨0, 7⟩ genFresh 4 (init ⟨0, 7⟩ Nat) =
        { init ⟨0, 7⟩ Nat with status := Status.succeeded } ∧
    (loop ⟨0, 7⟩ genFresh 4 (init ⟨0, 7⟩ Nat)).status = Status.succeeded ∧
    (loop ⟨0, 7⟩ genFresh 4 (init ⟨0, 7⟩ Nat)).attempts = 0 ∧
    (loop ⟨0, 7⟩ genFresh 4 (init ⟨0, 7⟩ Nat)).persisted = [] ∧
    (loop ⟨0, 7⟩ genFresh 4 (init ⟨0, 7⟩ Nat)).maxTries = 7 :=
  C8_target_zero_immediate_success Nat ⟨0, 7⟩ genFresh 3 rfl

/-- C10: for every run whose initial retry budget is at least 1, the
`u32` counter is strictly positive in every state the loop can still
step from (all reachable states arise as `loop` results for some fuel),
so the decrement in the retry branch never underflows; the decrement of
a positive counter is exact, and reaching zero is detected immediately
at that decrement, before any further one. -/
theorem C10_no_underflow :
    ∀ (A : Type) [inst : DecidableEq A] (cfg : Config) (gen : Nat → Option A)
      (fuel : Nat),
      1 ≤ cfg.numTries →
      ((loop cfg gen fuel (init cfg A)).status = Status.running →
        1 ≤ (loop cfg gen fuel (init cfg A)).maxTries) ∧
      (∀ s : St A, 1 ≤ s.maxTries →
        (consume s).maxTries = s.maxTries - 1 ∧
        ((consume s).maxTries = 0 → (consume s).status = Status.exhausted)) := by
  intro A inst cfg gen fuel h1
  constructor
  · exact (@invB_loop A inst cfg gen fuel (init cfg A) (invB_init cfg h1 A)).run_pos
  · intro s hs
    have hd : decWrap s.maxTries = s.maxTries - 1 := decWrap_pos _ hs
    constructor
    · rw [consume_maxTries, hd]
    · intro hz
      rw [consume_maxTries] at hz
      rw [consume_status, if_pos hz]

/-- Witness for C10: a counter at its last unit is decremented exactly
to zero and the run is exhausted at that very step. -/
theorem C10_no_underflow_witness :
    (consume sLast).maxTries = 0 ∧ (consume sLast).status = Status.exhausted := by
  have h := (C10_no_underflow Nat ⟨1, 2⟩ genNone 1 (by decide)).2 sLast (by decide)
  have hz : (consume sLast).maxTries = 0 := h.1.trans (by decide)
  exact ⟨hz, h.2 hz⟩

/-- C6 (counterexample): two runs over the same configuration — one
whose generator never produces (budget exhausted, zero produced), one
whose generator always produces fresh artifacts (target reached) —
return the identical value to the caller: the returned triple contains
neither the produced-count (0 vs 2) nor the termination reason
(Exhausted vs Succeeded); those are only printed to stdout. -/
theorem C6_return_value_counterexample :
    cliTriple (cliRun Nat cExh genNone 20) = cliTriple (cliRun Nat cExh genFresh 20) ∧
    cliProduced (cliRun Nat cExh genNone 20) = some 0 ∧
    cliProduced (cliRun Nat cExh genFresh 20) = some 2 ∧
    cliStatus (cliRun Nat cExh genNone 20) = some Status.exhausted ∧
    cliStatus (cliRun Nat cExh genFresh 20) = some Status.succeeded := by
  have he : ∀ (gen : Nat → Option Nat) (fuel : Nat),
      cliRun Nat cExh gen fuel =
        Except.ok ((retPrintLines cExh, 0, 0),
          loop ⟨2, 5⟩ gen fuel (init ⟨2, 5⟩ Nat)) := by
    intro gen fuel
    show (if sumCheckFails cExh.w = true then _ else _) = _
    rw [show sumCheckFails cExh.w = false from sumCheckFails_wHalf,
        if_neg Bool.false_ne_true]
    rfl
  rw [he genNone 20, he genFresh 20]
  exact ⟨rfl, by decide, by decide, by decide, by decide⟩

/-- C6 (amended): whenever the run completes without a configuration
panic, the value returned to the caller is exactly the four status lines
pushed before the loop together with status code 0 and 0.0 — budget
exhaustion is not reported as an error — and this returned value is
independent of the generator behavior and of the loop outcome: the
produced-count and the termination reason are not part of it (they are
printed to stdout only). -/
theorem C6_return_value_amended :
    ∀ (c : CliConfig) (gen gen2 : Nat → Option Nat) (fuel fuel2 : Nat)
      (t : List String × Nat × ℚ) (s : St Nat),
      cliRun Nat c gen fuel = Except.ok (t, s) →
      t = (retPrintLines c, 0, 0) ∧
      t.2.1 = 0 ∧
      cliTriple (cliRun Nat c gen2 fuel2) = some t := by
  intro c gen gen2 fuel fuel2 t s h
  unfold cliRun at h ⊢
  cases hs : sumCheckFails c.w with
  | true =>
    rw [hs, if_pos rfl] at h
    simp at h
  | false =>
    have hne : ¬(sumCheckFails c.w = true) := by
      rw [hs]
      exact Bool.false_ne_true
    rw [if_neg hne] at h
    rw [if_neg Bool.false_ne_true]
    cases hsel : selectProbas c.probasPresent c.probasName c.w with
    | error e =>
      rw [hsel] at h
      simp [Except.map] at h
    | ok p =>
      rw [hsel] at h
      have h' : ((retPrintLines c, 0, 0),
          loop ⟨c.numInts, c.numTries⟩ gen fuel (init ⟨c.numInts, c.numTries⟩ Nat)) =
          (t, s) := Except.ok.inj h
      have ht : ((retPrintLines c, 0, 0) : List String × Nat × ℚ) = t :=
        congrArg Prod.fst h'
      refine ⟨ht.symm, ?_, ?_⟩
      · rw [← ht]
      · rw [← ht]
        rfl

/-- Witness for C6 (amended) at a concrete non-panicking run. -/
theorem C6_return_value_amended_witness :
    cliTriple (cliRun Nat cExh genFresh 7) = some (retPrintLines cExh, 0, 0) :=
  (C6_return_value_amended cExh genNone genFresh 10 7 (retPrintLines cExh, 0, 0)
    (loop ⟨2, 5⟩ genNone 10 (init ⟨2, 5⟩ Nat))
    (by
      show (if sumCheckFails cExh.w = true then _ else _) = _
      rw [show sumCheckFails cExh.w = false from sumCheckFails_wHalf,
          if_neg Bool.false_ne_true]
      rfl)).2.2

end RngGen
